import Mathlib

/-!
Shallow embedding of `src/main.py` of the dex-tts-model-service repository:
the CUDA device-selection scan, the `/generate` request handler, the
`/health` endpoint together with the startup model-load, and the uptime
formatting of `/service`.  Pure logic is embedded as Lean functions; the
filesystem is passed explicitly as an association list of paths to byte
contents; exceptions of the external TTS library are a parameter describing
at which point of the `try` block the exception (if any) is raised.
-/

namespace DexTTS

/-! ## Device selection (main.py lines 47-67) -/

/-- `torch.cuda.get_device_properties(i)`: the fields the selector reads. -/
structure DeviceProps where
  name : String
  major : Nat
  minor : Nat
deriving DecidableEq, Repr

/-- Python's `"4060" in props.name`: substring containment. -/
def contains4060 (name : String) : Bool :=
  decide (List.IsInfix "4060".toList name.toList)

/-- Number of decimal digits of `n` (length of its decimal rendering;
`0` renders as `"0"`, one digit). -/
def decimalDigits (n : Nat) : Nat :=
  (Nat.toDigits 10 n).length

/-- `float(f"{props.major}.{props.minor}")` as an exact rational:
`major + minor / 10 ^ (number of decimal digits of minor)`.  For the short
decimal strings that arise here, Python float comparison agrees with the
comparison of these exact values. -/
def capFloat (p : DeviceProps) : ℚ :=
  (p.major : ℚ) + (p.minor : ℚ) / 10 ^ decimalDigits p.minor

/-- The `for i in range(torch.cuda.device_count())` loop of main.py lines
51-65: `i` is the index of the head of the remaining list, `best` is
`best_device_index`, `bestCap` is `best_capability`.  A `"4060"` name
breaks out at once; otherwise a strictly higher capability float updates
the running best. -/
def selectLoop : List DeviceProps → Nat → Nat → ℚ → Nat
  | [], _, best, _ => best
  | p :: rest, i, best, bestCap =>
    if contains4060 p.name then i
    else if capFloat p > bestCap then selectLoop rest (i + 1) i (capFloat p)
    else selectLoop rest (i + 1) best bestCap

/-- `best_device_index` after the scan: initial index `0`, initial
`best_capability = -1.0`. -/
def best_device_index (devices : List DeviceProps) : Nat :=
  selectLoop devices 0 0 (-1)

/-- The `DEVICE` module global: `f"cuda:{best_device_index}"` when CUDA is
available, `"cpu"` otherwise (main.py lines 67, 70). -/
def DEVICE_of (cudaAvailable : Bool) (devices : List DeviceProps) : String :=
  if cudaAvailable then "cuda:" ++ toString (best_device_index devices) else "cpu"

/-- Spec-side order on capability versions: lexicographic on the
`(major, minor)` pair, non-strict. -/
def capLe (p q : DeviceProps) : Prop :=
  p.major < q.major ∨ (p.major = q.major ∧ p.minor ≤ q.minor)

/-- Spec-side order on capability versions: lexicographic on the
`(major, minor)` pair, strict. -/
def capLt (p q : DeviceProps) : Prop :=
  p.major < q.major ∨ (p.major = q.major ∧ p.minor < q.minor)

instance (p q : DeviceProps) : Decidable (capLe p q) := by
  unfold capLe; infer_instance

instance (p q : DeviceProps) : Decidable (capLt p q) := by
  unfold capLt; infer_instance

/-! ## The `/generate` handler (main.py lines 145-191)

The filesystem is an association list from paths to byte contents; the
points at which the external library may raise inside the `try` block are
described by a `TryOutcome` parameter. -/

/-- File contents, as a byte list. -/
abbrev Bytes := List Nat

/-- The visible filesystem: newest binding of a path wins. -/
abbrev FS := List (String × Bytes)

/-- `os.path.exists(p)`. -/
def fsExists (fs : FS) (p : String) : Bool :=
  (fs.lookup p).isSome

/-- Writing a file (`tts_to_file` output): bind `p` to `b`. -/
def fsWrite (fs : FS) (p : String) (b : Bytes) : FS :=
  (p, b) :: fs

/-- `open(p, "rb").read()`: the current contents of `p`, if present. -/
def fsRead (fs : FS) (p : String) : Option Bytes :=
  fs.lookup p

/-- `os.remove(p)`: drop the newest binding of `p`. -/
def fsRemove (fs : FS) (p : String) : FS :=
  fs.eraseP (fun e => e.1 == p)

/-- `DEFAULT_SPEAKER_PATH = os.path.join(os.path.dirname(__file__), "assets", "reference.wav")`
(main.py line 74); the directory prefix is elided. -/
def DEFAULT_SPEAKER_PATH : String := "assets/reference.wav"

/-- `OUTPUT_DIR = os.path.join(os.path.dirname(__file__), "output")`
(main.py line 75); the directory prefix is elided. -/
def OUTPUT_DIR : String := "output"

/-- The request body model `GenerateRequest` (main.py lines 101-104). -/
structure GenerateRequest where
  text : String
  language : String := "en"
  speaker_wav : String := DEFAULT_SPEAKER_PATH
deriving DecidableEq, Repr

/-- Where, if anywhere, the `try` block of `generate_audio` raises:
`ok b` means `tts_to_file` wrote bytes `b` and nothing raised;
`synthErr e` means `tts_to_file` raised an exception with message `e`
(nothing written); `readErr b e` means the write produced `b` but the
read-back raised `e`; `removeErr b e` means write and read succeeded and
`os.remove` raised `e` (the file is left behind). -/
inductive TryOutcome where
  | ok (b : Bytes)
  | synthErr (e : String)
  | readErr (b : Bytes) (e : String)
  | removeErr (b : Bytes) (e : String)
deriving DecidableEq, Repr

/-- Filesystem operations on the temporary artifact, recorded in order of
successful execution. -/
inductive Op where
  | create
  | read
  | delete
deriving DecidableEq, Repr

/-- The handler's observable reply: an `HTTPException` with a status code
and a `detail` string, or a 200 `Response` carrying `audio/wav` bytes. -/
inductive HttpResult where
  | exc (status : Nat) (detail : String)
  | audio (data : Bytes)
deriving DecidableEq, Repr

/-- HTTP status code of a reply (a plain `Response` is 200). -/
def HttpResult.statusCode : HttpResult → Nat
  | .exc s _ => s
  | .audio _ => 200

/-- `generate_audio` (main.py lines 145-191).  `tts_model` is the module
global (abstracted to `Option Unit`), `fs` the filesystem at request time,
`uuid` the value of `uuid.uuid4()`, `outcome` the behaviour of the
external calls in the `try` block.  Returns the reply, the final
filesystem, and the artifact operations that were executed. -/
def generate_audio (tts_model : Option Unit) (req : GenerateRequest)
    (fs : FS) (uuid : String) (outcome : TryOutcome) :
    HttpResult × FS × List Op :=
  match tts_model with
  | none => (.exc 503 "TTS model is not available.", fs, [])
  | some _ =>
    if req.text = "" then (.exc 400 "Text is required.", fs, [])
    else if fsExists fs req.speaker_wav = false then
      if req.speaker_wav = DEFAULT_SPEAKER_PATH then
        (.exc 500 ("Default reference voice not found at " ++ DEFAULT_SPEAKER_PATH
          ++ ". Please add a reference.wav file."), fs, [])
      else
        (.exc 400 ("Speaker wav file not found: " ++ req.speaker_wav), fs, [])
    else
      let output_path := OUTPUT_DIR ++ "/" ++ uuid ++ ".wav"
      match outcome with
      | .synthErr e => (.exc 500 e, fs, [])
      | .readErr b e => (.exc 500 e, fsWrite fs output_path b, [.create])
      | .removeErr b e => (.exc 500 e, fsWrite fs output_path b, [.create, .read])
      | .ok b =>
        let fs1 := fsWrite fs output_path b
        match fsRead fs1 output_path with
        | none => (.exc 500 "No such file or directory", fs1, [.create])
        | some audio_data =>
          (.audio audio_data, fsRemove fs1 output_path, [.create, .read, .delete])

/-! ## Startup model load and `/health` (main.py lines 79-97, 106-113) -/

/-- Whether the model load inside `lifespan` succeeds or raises with a
message. -/
inductive LoadResult where
  | success
  | failure (e : String)
deriving DecidableEq, Repr

/-- The value of the `tts_model` global after the startup section of
`lifespan` (main.py lines 83-94): set on success, left unset when the
load raises. -/
def lifespan_startup : LoadResult → Option Unit
  | .success => some ()
  | .failure _ => none

/-- A JSON reply of the `/health` endpoint: status code plus the fields
the two branches emit. -/
structure HealthResponse where
  status_code : Nat
  status : String
  detail : Option String := none
  device : Option String := none
  model : Option String := none
deriving DecidableEq, Repr

/-- `health_check` (main.py lines 106-113), parametrised by the `DEVICE`
global. -/
def health_check (tts_model : Option Unit) (DEVICE : String) : HealthResponse :=
  match tts_model with
  | none => { status_code := 503, status := "error", detail := some "Model not loaded" }
  | some _ => { status_code := 200, status := "ok", device := some DEVICE,
                model := some "xtts_v2" }

/-! ## Uptime formatting in `/service` (main.py lines 118-124) -/

/-- The uptime string of `service_status`: the `divmod` chain on the
elapsed seconds and the conditional day prefix, for whole-second
durations. -/
def uptime_str (uptime_seconds : Nat) : String :=
  let m := uptime_seconds / 60
  let s := uptime_seconds % 60
  let h := m / 60
  let m := m % 60
  let d := h / 24
  let h := h % 24
  if d > 0 then
    toString d ++ "d " ++ toString h ++ "h " ++ toString m ++ "m " ++ toString s ++ "s"
  else
    toString h ++ "h " ++ toString m ++ "m " ++ toString s ++ "s"

/-- Spec-side formatter: components computed independently as
`days = t / 86400`, `hours = t % 86400 / 3600`, `minutes = t % 3600 / 60`,
`seconds = t % 60`, with the day component omitted exactly when
`days = 0`. -/
def uptimeSpecFormat (t : Nat) : String :=
  (if t / 86400 = 0 then "" else toString (t / 86400) ++ "d ")
    ++ toString (t % 86400 / 3600) ++ "h " ++ toString (t % 3600 / 60) ++ "m "
    ++ toString (t % 60) ++ "s"

/-! ## Helper lemmas -/

theorem fsRead_fsWrite (fs : FS) (p : String) (b : Bytes) :
    fsRead (fsWrite fs p b) p = some b := by
  simp [fsRead, fsWrite, List.lookup]

theorem fsRemove_fsWrite (fs : FS) (p : String) (b : Bytes) :
    fsRemove (fsWrite fs p b) p = fs := by
  simp [fsRemove, fsWrite, List.eraseP_cons]

theorem speaker_message_ne_text_message (s : String) :
    "Speaker wav file not found: " ++ s ≠ "Text is required." := by
  intro h
  have hlen := congrArg String.length h
  rw [String.length_append] at hlen
  have h1 : ("Speaker wav file not found: " : String).length = 28 := by decide
  have h2 : ("Text is required." : String).length = 17 := by decide
  omega

/-! ## Theorems about the `/generate` handler -/

/-- C3: while the model handle is unset, `/generate` answers 503
(`ServiceUnavailable`) for every request payload, filesystem state and
synthesis behaviour. -/
theorem generate_model_unset_503 (req : GenerateRequest) (fs : FS) (uuid : String)
    (outcome : TryOutcome) :
    (generate_audio none req fs uuid outcome).1 =
      .exc 503 "TTS model is not available." := rfl

/-- C4, counterexample to the unconditional form: a request with empty text
sent while the model handle is unset gets status 503, not 400 — the model
check precedes the text check. -/
theorem generate_empty_text_unset_model_cex :
    (generate_audio none { text := "" } [] "u" (.synthErr "x")).1.statusCode = 503 ∧
    (503 : Nat) ≠ 400 := by
  exact ⟨rfl, by decide⟩

/-- C4, amended: with the model handle set, every request with empty text
gets status 400 (`BadRequest`). -/
theorem generate_empty_text_400 (req : GenerateRequest) (fs : FS) (uuid : String)
    (outcome : TryOutcome) (h : req.text = "") :
    (generate_audio (some ()) req fs uuid outcome).1 = .exc 400 "Text is required." := by
  simp [generate_audio, h]

/-- Witness for `generate_empty_text_400`. -/
theorem generate_empty_text_400_witness :
    (generate_audio (some ()) { text := "" } [] "u" (.ok [1])).1 =
      .exc 400 "Text is required." :=
  generate_empty_text_400 { text := "" } [] "u" (.ok [1]) rfl

/-- C5: with the model set and text non-empty, a speaker-reference path
that does not exist yields 500 (`InternalError`) when it is the bundled
default path and 400 (`BadRequest`) otherwise. -/
theorem generate_missing_speaker_status (req : GenerateRequest) (fs : FS)
    (uuid : String) (outcome : TryOutcome) (ht : req.text ≠ "")
    (hs : fsExists fs req.speaker_wav = false) :
    (generate_audio (some ()) req fs uuid outcome).1 =
      if req.speaker_wav = DEFAULT_SPEAKER_PATH then
        .exc 500 ("Default reference voice not found at " ++ DEFAULT_SPEAKER_PATH
          ++ ". Please add a reference.wav file.")
      else
        .exc 400 ("Speaker wav file not found: " ++ req.speaker_wav) := by
  by_cases hd : req.speaker_wav = DEFAULT_SPEAKER_PATH
  · simp only [generate_audio, if_neg ht]
    simp only [hs]
    simp [hd]
  · simp [generate_audio, ht, hs, hd]

/-- Witness for `generate_missing_speaker_status`: a missing custom path
gives 400, the missing default path gives 500. -/
theorem generate_missing_speaker_status_witness :
    (generate_audio (some ()) ⟨"hi", "en", "missing.wav"⟩ [] "u" (.ok [])).1 =
      .exc 400 ("Speaker wav file not found: " ++ "missing.wav") ∧
    (generate_audio (some ()) ⟨"hi", "en", DEFAULT_SPEAKER_PATH⟩ [] "u" (.ok [])).1 =
      .exc 500 ("Default reference voice not found at " ++ DEFAULT_SPEAKER_PATH
        ++ ". Please add a reference.wav file.") := by
  constructor
  · have h := generate_missing_speaker_status ⟨"hi", "en", "missing.wav"⟩ [] "u"
      (.ok []) (by decide) (by decide)
    simpa using h
  · have h := generate_missing_speaker_status ⟨"hi", "en", DEFAULT_SPEAKER_PATH⟩ [] "u"
      (.ok []) (by decide) (by decide)
    simpa using h

/-- C6: when all three validation checks pass and the `try` block raises —
during synthesis, during the read-back, or during the delete — the handler
answers 500 with the exception's message passed through verbatim as the
`detail`. -/
theorem generate_exception_500_verbatim (req : GenerateRequest) (fs : FS)
    (uuid : String) (b : Bytes) (e : String) (ht : req.text ≠ "")
    (hs : fsExists fs req.speaker_wav = true) :
    (generate_audio (some ()) req fs uuid (.synthErr e)).1 = .exc 500 e ∧
    (generate_audio (some ()) req fs uuid (.readErr b e)).1 = .exc 500 e ∧
    (generate_audio (some ()) req fs uuid (.removeErr b e)).1 = .exc 500 e := by
  refine ⟨?_, ?_, ?_⟩ <;> simp [generate_audio, ht, hs]

/-- Witness for `generate_exception_500_verbatim`. -/
theorem generate_exception_500_verbatim_witness :
    (generate_audio (some ()) ⟨"hi", "en", "spk.wav"⟩ [("spk.wav", [0])] "u"
      (.synthErr "CUDA out of memory")).1 = .exc 500 "CUDA out of memory" := by
  exact (generate_exception_500_verbatim ⟨"hi", "en", "spk.wav"⟩ [("spk.wav", [0])] "u"
    [7] "CUDA out of memory" (by decide) (by decide)).1

/-- C7: on the success path the artifact is created, read back as the
response body and deleted — the final filesystem equals the initial one and
the operation trace is create, read, delete; when synthesis or the
read-back raises, the delete is never executed. -/
theorem generate_artifact_lifecycle (req : GenerateRequest) (fs : FS)
    (uuid : String) (b : Bytes) (e : String) (ht : req.text ≠ "")
    (hs : fsExists fs req.speaker_wav = true) :
    generate_audio (some ()) req fs uuid (.ok b) =
      (.audio b, fs, [.create, .read, .delete]) ∧
    Op.delete ∉ (generate_audio (some ()) req fs uuid (.synthErr e)).2.2 ∧
    Op.delete ∉ (generate_audio (some ()) req fs uuid (.readErr b e)).2.2 := by
  refine ⟨?_, ?_, ?_⟩ <;>
    simp [generate_audio, ht, hs, fsRead_fsWrite, fsRemove_fsWrite]

/-- Witness for `generate_artifact_lifecycle`. -/
theorem generate_artifact_lifecycle_witness :
    generate_audio (some ()) ⟨"hi", "en", "spk.wav"⟩ [("spk.wav", [0])] "u" (.ok [1, 2]) =
      (.audio [1, 2], [("spk.wav", [0])], [.create, .read, .delete]) ∧
    Op.delete ∉ (generate_audio (some ()) ⟨"hi", "en", "spk.wav"⟩ [("spk.wav", [0])] "u"
      (.synthErr "boom")).2.2 := by
  have h := generate_artifact_lifecycle ⟨"hi", "en", "spk.wav"⟩ [("spk.wav", [0])] "u"
    [1, 2] "boom" (by decide) (by decide)
  exact ⟨h.1, h.2.1⟩

/-- C10: the non-empty-text validation rejects only the exactly empty
string — any non-empty text (a whitespace-only one included) passes it, and
when the speaker path exists the request proceeds to synthesis. -/
theorem text_validation_only_empty (req : GenerateRequest) (fs : FS)
    (uuid : String) (outcome : TryOutcome) (b : Bytes) (ht : req.text ≠ "") :
    (generate_audio (some ()) req fs uuid outcome).1 ≠ .exc 400 "Text is required." ∧
    (fsExists fs req.speaker_wav = true →
      (generate_audio (some ()) req fs uuid (.ok b)).1 = .audio b) := by
  constructor
  · by_cases hs : fsExists fs req.speaker_wav = false
    · by_cases hd : req.speaker_wav = DEFAULT_SPEAKER_PATH
      · simp only [generate_audio, if_neg ht]
        simp only [hs]
        simp [hd]
      · simp only [generate_audio, if_neg ht]
        simp only [hs]
        simp [hd]
        exact speaker_message_ne_text_message req.speaker_wav
    · have hs' : fsExists fs req.speaker_wav = true := by
        cases hfe : fsExists fs req.speaker_wav
        · exact absurd hfe hs
        · rfl
      cases outcome <;> simp [generate_audio, ht, hs', fsRead_fsWrite]
  · intro hs
    simp [generate_audio, ht, hs, fsRead_fsWrite]

/-- Witness for `text_validation_only_empty` at the whitespace-only text
`" "`. -/
theorem text_validation_only_empty_witness :
    (generate_audio (some ()) ⟨" ", "en", "spk.wav"⟩ [("spk.wav", [0])] "u"
      (.ok [1, 2])).1 ≠ .exc 400 "Text is required." ∧
    (generate_audio (some ()) ⟨" ", "en", "spk.wav"⟩ [("spk.wav", [0])] "u"
      (.ok [1, 2])).1 = .audio [1, 2] := by
  have h := text_validation_only_empty ⟨" ", "en", "spk.wav"⟩ [("spk.wav", [0])] "u"
    (.ok [1, 2]) [1, 2] (by decide)
  exact ⟨h.1, h.2 (by decide)⟩

/-! ## Theorems about startup, `/health` and the uptime string -/

/-- C9: a failed model load leaves the handle unset and `/health` then
answers 503 with status `"error"`; after a successful load `/health`
answers 200 with status `"ok"` and the selected device string. -/
theorem startup_degraded_health (e : String) (cuda : Bool) (devices : List DeviceProps) :
    lifespan_startup (.failure e) = none ∧
    health_check (lifespan_startup (.failure e)) (DEVICE_of cuda devices) =
      { status_code := 503, status := "error", detail := some "Model not loaded" } ∧
    health_check (lifespan_startup .success) (DEVICE_of cuda devices) =
      { status_code := 200, status := "ok", device := some (DEVICE_of cuda devices),
        model := some "xtts_v2" } :=
  ⟨rfl, rfl, rfl⟩

/-- C8: for every whole-second duration the formatted uptime has components
days = t / 86400, hours = t % 86400 / 3600, minutes = t % 3600 / 60,
seconds = t % 60, with the day component omitted exactly when days = 0;
3600 s formats as `"1h 0m 0s"` and 90000 s as `"1d 1h 0m 0s"`. -/
theorem uptime_format_correct :
    (∀ t : Nat, uptime_str t = uptimeSpecFormat t) ∧
    uptime_str 3600 = "1h 0m 0s" ∧ uptime_str 90000 = "1d 1h 0m 0s" := by
  refine ⟨?_, by decide, by decide⟩
  intro t
  simp only [uptime_str, uptimeSpecFormat]
  have h1 : t / 60 / 60 / 24 = t / 86400 := by omega
  have h2 : t / 60 / 60 % 24 = t % 86400 / 3600 := by omega
  have h3 : t / 60 % 60 = t % 3600 / 60 := by omega
  rw [h1, h2, h3]
  by_cases hd : t / 86400 = 0
  · simp [hd]
  · simp [hd, Nat.pos_of_ne_zero hd]

/-! ## Theorems about the device selector -/

theorem selectLoop_preferred (l : List DeviceProps) :
    ∀ (i best : Nat) (c : ℚ), (∃ p ∈ l, contains4060 p.name = true) →
      selectLoop l i best c = i + l.findIdx (fun p => contains4060 p.name) := by
  induction l with
  | nil => intro i best c h; simp at h
  | cons p rest ih =>
    intro i best c h
    by_cases hp : contains4060 p.name = true
    · simp [selectLoop, hp, List.findIdx_cons]
    · have h' : ∃ q ∈ rest, contains4060 q.name = true := by
        rcases h with ⟨q, hq, hq4⟩
        rcases List.mem_cons.mp hq with rfl | hq'
        · exact absurd hq4 hp
        · exact ⟨q, hq', hq4⟩
      have hrec : ∀ b' (c' : ℚ), selectLoop (p :: rest) i b' c' =
          selectLoop rest (i + 1) (if capFloat p > c' then i else b')
            (if capFloat p > c' then capFloat p else c') := by
        intro b' c'
        by_cases hc : capFloat p > c' <;> simp [selectLoop, hp, hc]
      rw [hrec best c, ih (i + 1) _ _ h', List.findIdx_cons]
      simp [hp]
      omega

/-- C2: when some device name contains the preferred substring `"4060"`,
the selector returns the index of the first such device, whatever the
capability versions are. -/
theorem best_device_index_preferred_first (devices : List DeviceProps)
    (h : ∃ p ∈ devices, contains4060 p.name = true) :
    best_device_index devices = devices.findIdx (fun p => contains4060 p.name) := by
  have h0 := selectLoop_preferred devices 0 0 (-1) h
  simpa [best_device_index] using h0

/-- Witness for `best_device_index_preferred_first`: the 4060 at index 1 is
picked although index 0 has the higher capability. -/
theorem best_device_index_preferred_first_witness :
    best_device_index [⟨"NVIDIA RTX 3090", 8, 6⟩, ⟨"NVIDIA RTX 4060", 8, 9⟩] =
      List.findIdx (fun p : DeviceProps => contains4060 p.name)
        [⟨"NVIDIA RTX 3090", 8, 6⟩, ⟨"NVIDIA RTX 4060", 8, 9⟩] ∧
    List.findIdx (fun p : DeviceProps => contains4060 p.name)
        [⟨"NVIDIA RTX 3090", 8, 6⟩, ⟨"NVIDIA RTX 4060", 8, 9⟩] = 1 := by
  refine ⟨?_, by decide⟩
  exact best_device_index_preferred_first
    [⟨"NVIDIA RTX 3090", 8, 6⟩, ⟨"NVIDIA RTX 4060", 8, 9⟩]
    ⟨⟨"NVIDIA RTX 4060", 8, 9⟩, by decide, by decide⟩

theorem capFloat_nonneg (p : DeviceProps) : 0 ≤ capFloat p := by
  unfold capFloat
  positivity

theorem selectLoop_no_preferred (l : List DeviceProps) :
    ∀ (i best : Nat) (c : ℚ), (∀ p ∈ l, contains4060 p.name = false) →
      (selectLoop l i best c = best ∧ ∀ p ∈ l, capFloat p ≤ c) ∨
      (∃ j, ∃ hj : j < l.length,
        selectLoop l i best c = i + j ∧
        c < capFloat (l.get ⟨j, hj⟩) ∧
        (∀ k (hk : k < l.length), capFloat (l.get ⟨k, hk⟩) ≤ capFloat (l.get ⟨j, hj⟩)) ∧
        (∀ k (hk : k < l.length), k < j →
          capFloat (l.get ⟨k, hk⟩) < capFloat (l.get ⟨j, hj⟩))) := by
  induction l with
  | nil =>
    intro i best c _
    left
    exact ⟨rfl, by simp⟩
  | cons p rest ih =>
    intro i best c h4
    have hp : contains4060 p.name = false := h4 p (List.mem_cons_self p rest)
    have h4' : ∀ q ∈ rest, contains4060 q.name = false :=
      fun q hq => h4 q (List.mem_cons_of_mem p hq)
    by_cases hc : capFloat p > c
    · have hstep : selectLoop (p :: rest) i best c =
          selectLoop rest (i + 1) i (capFloat p) := by
        simp [selectLoop, hp, hc]
      rcases ih (i + 1) i (capFloat p) h4' with ⟨heq, hall⟩ | ⟨j, hj, heq, hgt, hmax, hstrict⟩
      · right
        refine ⟨0, by simp, ?_, ?_, ?_, ?_⟩
        · rw [hstep, heq]; omega
        · exact hc
        · intro k hk
          match k, hk with
          | 0, _ => exact le_refl _
          | k' + 1, hk =>
            exact hall (rest.get ⟨k', by simpa using Nat.lt_of_succ_lt_succ hk⟩)
              (List.get_mem rest _ _)
        · intro k hk hk0
          exact absurd hk0 (Nat.not_lt_zero k)
      · right
        refine ⟨j + 1, by simpa using Nat.succ_lt_succ hj, ?_, ?_, ?_, ?_⟩
        · rw [hstep, heq]; omega
        · exact lt_trans hc hgt
        · intro k hk
          match k, hk with
          | 0, _ => exact le_of_lt hgt
          | k' + 1, hk =>
            exact hmax k' (by simpa using Nat.lt_of_succ_lt_succ hk)
        · intro k hk hkj
          match k, hk with
          | 0, _ => exact hgt
          | k' + 1, hk =>
            exact hstrict k' (by simpa using Nat.lt_of_succ_lt_succ hk)
              (Nat.lt_of_succ_lt_succ hkj)
    · have hle : capFloat p ≤ c := le_of_not_lt hc
      have hstep : selectLoop (p :: rest) i best c =
          selectLoop rest (i + 1) best c := by
        simp [selectLoop, hp, hc]
      rcases ih (i + 1) best c h4' with ⟨heq, hall⟩ | ⟨j, hj, heq, hgt, hmax, hstrict⟩
      · left
        refine ⟨by rw [hstep, heq], ?_⟩
        intro q hq
        rcases List.mem_cons.mp hq with rfl | hq'
        · exact hle
        · exact hall q hq'
      · right
        refine ⟨j + 1, by simpa using Nat.succ_lt_succ hj, ?_, ?_, ?_, ?_⟩
        · rw [hstep, heq]; omega
        · exact hgt
        · intro k hk
          match k, hk with
          | 0, _ => exact le_of_lt (lt_of_le_of_lt hle hgt)
          | k' + 1, hk =>
            exact hmax k' (by simpa using Nat.lt_of_succ_lt_succ hk)
        · intro k hk hkj
          match k, hk with
          | 0, _ => exact lt_of_le_of_lt hle hgt
          | k' + 1, hk =>
            exact hstrict k' (by simpa using Nat.lt_of_succ_lt_succ hk)
              (Nat.lt_of_succ_lt_succ hkj)

theorem decimalDigits_of_lt_ten {n : Nat} (h : n < 10) : decimalDigits n = 1 := by
  interval_cases n <;> decide

theorem capFloat_of_minor_lt_ten (p : DeviceProps) (h : p.minor < 10) :
    capFloat p = (p.major : ℚ) + (p.minor : ℚ) / 10 := by
  unfold capFloat
  rw [decimalDigits_of_lt_ten h]
  norm_num

theorem capFloat_le_iff (p q : DeviceProps) (hp : p.minor < 10) (hq : q.minor < 10) :
    capFloat p ≤ capFloat q ↔ capLe p q := by
  rw [capFloat_of_minor_lt_ten p hp, capFloat_of_minor_lt_ten q hq]
  unfold capLe
  constructor
  · intro h
    have h10 : (10 : ℚ) * p.major + p.minor ≤ 10 * q.major + q.minor := by linarith
    have hn : 10 * p.major + p.minor ≤ 10 * q.major + q.minor := by exact_mod_cast h10
    omega
  · intro h
    have hn : 10 * p.major + p.minor ≤ 10 * q.major + q.minor := by omega
    have h10 : (10 : ℚ) * p.major + p.minor ≤ 10 * q.major + q.minor := by exact_mod_cast hn
    linarith

theorem capFloat_lt_iff (p q : DeviceProps) (hp : p.minor < 10) (hq : q.minor < 10) :
    capFloat p < capFloat q ↔ capLt p q := by
  rw [capFloat_of_minor_lt_ten p hp, capFloat_of_minor_lt_ten q hq]
  unfold capLt
  constructor
  · intro h
    have h10 : (10 : ℚ) * p.major + p.minor < 10 * q.major + q.minor := by linarith
    have hn : 10 * p.major + p.minor < 10 * q.major + q.minor := by exact_mod_cast h10
    omega
  · intro h
    have hn : 10 * p.major + p.minor < 10 * q.major + q.minor := by omega
    have h10 : (10 : ℚ) * p.major + p.minor < 10 * q.major + q.minor := by exact_mod_cast hn
    linarith

/-- C1, counterexample to the pair-order form: with capability versions
(8, 6) and (8, 10) and no preferred name, the scan returns index 0 even
though device 1 has the strictly higher (major, minor) pair — the code
compares `float(f"8.10") = 8.1` against `8.6`. -/
theorem best_device_index_pair_order_cex :
    best_device_index [⟨"Device A", 8, 6⟩, ⟨"Device B", 8, 10⟩] = 0 ∧
    capLt (⟨"Device A", 8, 6⟩ : DeviceProps) ⟨"Device B", 8, 10⟩ ∧
    contains4060 "Device A" = false ∧ contains4060 "Device B" = false := by
  have hA : contains4060 "Device A" = false := by decide
  have hB : contains4060 "Device B" = false := by decide
  have d6 : decimalDigits 6 = 1 := by decide
  have d10 : decimalDigits 10 = 2 := by decide
  refine ⟨?_, by decide, hA, hB⟩
  norm_num [best_device_index, selectLoop, capFloat, hA, hB, d6, d10]

/-- C1, amended: for a non-empty device list with no preferred-name match
in which every minor capability is a single digit, the selector returns
the earliest index of a device whose (major, minor) capability pair is
maximal — every device is (major, minor)-below it and every earlier device
strictly so. -/
theorem best_device_index_highest_capability (devices : List DeviceProps)
    (hne : devices ≠ [])
    (h4 : ∀ p ∈ devices, contains4060 p.name = false)
    (h9 : ∀ p ∈ devices, p.minor < 10) :
    ∃ hj : best_device_index devices < devices.length,
      (∀ k (hk : k < devices.length),
        capLe (devices.get ⟨k, hk⟩) (devices.get ⟨best_device_index devices, hj⟩)) ∧
      (∀ k (hk : k < devices.length), k < best_device_index devices →
        capLt (devices.get ⟨k, hk⟩) (devices.get ⟨best_device_index devices, hj⟩)) := by
  rcases selectLoop_no_preferred devices 0 0 (-1) h4 with ⟨_, hall⟩ | ⟨j, hj, heq, _, hmax, hstrict⟩
  · rcases devices with _ | ⟨p, rest⟩
    · exact absurd rfl hne
    · have h1 := hall p (List.mem_cons_self p rest)
      have h2 := capFloat_nonneg p
      linarith
  · have hbest : best_device_index devices = j := by
      simpa [best_device_index] using heq
    rw [hbest]
    refine ⟨hj, ?_, ?_⟩
    · intro k hk
      exact (capFloat_le_iff _ _ (h9 _ (List.get_mem devices _ _))
        (h9 _ (List.get_mem devices _ _))).mp (hmax k hk)
    · intro k hk hkj
      exact (capFloat_lt_iff _ _ (h9 _ (List.get_mem devices _ _))
        (h9 _ (List.get_mem devices _ _))).mp (hstrict k hk hkj)

/-- Witness for `best_device_index_highest_capability` on a three-device
list whose capability maximum (8, 6) is shared by indices 1 and 2. -/
theorem best_device_index_highest_capability_witness :
    best_device_index [⟨"A", 7, 5⟩, ⟨"B", 8, 6⟩, ⟨"C", 8, 6⟩] = 1 ∧
    ∃ hj : best_device_index [⟨"A", 7, 5⟩, ⟨"B", 8, 6⟩, ⟨"C", 8, 6⟩] <
        (([⟨"A", 7, 5⟩, ⟨"B", 8, 6⟩, ⟨"C", 8, 6⟩] : List DeviceProps)).length,
      (∀ k (hk : k < (([⟨"A", 7, 5⟩, ⟨"B", 8, 6⟩, ⟨"C", 8, 6⟩] : List DeviceProps)).length),
        capLe (([⟨"A", 7, 5⟩, ⟨"B", 8, 6⟩, ⟨"C", 8, 6⟩] : List DeviceProps).get ⟨k, hk⟩)
          (([⟨"A", 7, 5⟩, ⟨"B", 8, 6⟩, ⟨"C", 8, 6⟩] : List DeviceProps).get
            ⟨best_device_index [⟨"A", 7, 5⟩, ⟨"B", 8, 6⟩, ⟨"C", 8, 6⟩], hj⟩)) ∧
      (∀ k (hk : k < (([⟨"A", 7, 5⟩, ⟨"B", 8, 6⟩, ⟨"C", 8, 6⟩] : List DeviceProps)).length),
        k < best_device_index [⟨"A", 7, 5⟩, ⟨"B", 8, 6⟩, ⟨"C", 8, 6⟩] →
        capLt (([⟨"A", 7, 5⟩, ⟨"B", 8, 6⟩, ⟨"C", 8, 6⟩] : List DeviceProps).get ⟨k, hk⟩)
          (([⟨"A", 7, 5⟩, ⟨"B", 8, 6⟩, ⟨"C", 8, 6⟩] : List DeviceProps).get
            ⟨best_device_index [⟨"A", 7, 5⟩, ⟨"B", 8, 6⟩, ⟨"C", 8, 6⟩], hj⟩)) := by
  have hA : contains4060 "A" = false := by decide
  have hB : contains4060 "B" = false := by decide
  have hC : contains4060 "C" = false := by decide
  have d5 : decimalDigits 5 = 1 := by decide
  have d6 : decimalDigits 6 = 1 := by decide
  constructor
  · norm_num [best_device_index, selectLoop, capFloat, hA, hB, hC, d5, d6]
  · exact best_device_index_highest_capability [⟨"A", 7, 5⟩, ⟨"B", 8, 6⟩, ⟨"C", 8, 6⟩]
      (by decide) (by decide) (by decide)

end DexTTS
